import Mathlib

/-!
Verification development for the IntentVision ADK repository.

Shallow embedding of the A2A gateway service
(`src/adk/service/a2a_gateway/main.py`), the shared HTTP tools
(`src/adk/agents/shared_tools/intentvision_api.py`) and the session-memory
callback (`src/adk/agents/utils/memory.py`).

Conventions of the embedding:
* JSON values are modelled by the inductive `JVal`; Python `Dict[str, Any]`
  is an association list `List (String × JVal)`.
* A FastAPI handler outcome is a `HandlerResult`: `.ok body` is an HTTP 200
  response carrying `body`; `.httpError s d` is a raised
  `HTTPException(status_code=s, detail=d)` (an HTTP 4xx/5xx with that code);
  `.uncaught e` is a Python exception escaping the handler (surfaced by the
  framework as HTTP 500).
* A call that Python may complete or raise is modelled as an
  `Except String α` value supplied to the handler: `.ok` is a normal return,
  `.error e` a raised exception whose `str()` is `e`.
* The wall clock (`datetime.utcnow()`) is passed in as explicit string
  parameters (the second-resolution `strftime` form and the `isoformat` form).
-/

set_option linter.unusedVariables false

namespace IntentVision

/-- JSON-like Python values (str / bool / int / None / list / dict).
Floats do not occur in the code paths under study and are omitted. -/
inductive JVal where
  | null : JVal
  | b : Bool → JVal
  | n : Int → JVal
  | s : String → JVal
  | arr : List JVal → JVal
  | obj : List (String × JVal) → JVal
  deriving Repr

/-- Field lookup on a JSON value: `obj` lookup on dictionaries, `none`
otherwise (Python `.get` on a non-dict would raise; the handlers under study
only apply it to dicts). -/
def jget : JVal → String → Option JVal
  | .obj fields, k => fields.lookup k
  | _, _ => none

/-- Python truthiness of a JSON value (`if not x`). -/
def jTruthy : JVal → Bool
  | .null => false
  | .b v => v
  | .n i => i != 0
  | .s str => str != ""
  | .arr xs => !xs.isEmpty
  | .obj fs => !fs.isEmpty

mutual
/-- Python `repr` of a JSON value (used by f-string interpolation of dicts).
Quoting of strings follows Python (single quotes); escaping of quote
characters inside strings is not reproduced, which no studied claim
observes. -/
def pyRepr : JVal → String
  | .null => "None"
  | .b true => "True"
  | .b false => "False"
  | .n i => toString i
  | .s str => "\x27" ++ str ++ "\x27"
  | .arr xs => "[" ++ pyReprList xs ++ "]"
  | .obj fs => "\x7b" ++ pyReprFields fs ++ "\x7d"

/-- Comma-separated `repr` of list elements. -/
def pyReprList : List JVal → String
  | [] => ""
  | [x] => pyRepr x
  | x :: xs => pyRepr x ++ ", " ++ pyReprList xs

/-- Comma-separated `repr` of dict entries. -/
def pyReprFields : List (String × JVal) → String
  | [] => ""
  | [kv] => "\x27" ++ kv.1 ++ "\x27: " ++ pyRepr kv.2
  | kv :: kvs => "\x27" ++ kv.1 ++ "\x27: " ++ pyRepr kv.2 ++ ", " ++ pyReprFields kvs
end

/-- Python `str()` of a JSON value (f-string interpolation). -/
def pyStr : JVal → String
  | .s str => str
  | v => pyRepr v

/-- `AGENT_ENGINE_IDS` (main.py lines 34-39): the registered-agent table,
mapping agent name to Agent Engine id. `env` is the `ENV` environment
variable (default `"dev"`). -/
def AGENT_ENGINE_IDS (env : String) : List (String × String) :=
  [ ("orchestrator", "intentvision-orchestrator-" ++ env)
  , ("metric-analyst", "intentvision-metric-analyst-" ++ env)
  , ("alert-tuner", "intentvision-alert-tuner-" ++ env)
  , ("onboarding-coach", "intentvision-onboarding-coach-" ++ env) ]

/-- `AgentSkill` pydantic model (main.py lines 49-54). -/
structure AgentSkill where
  name : String
  description : String
  input_schema : JVal := .obj []
  output_schema : JVal := .obj []
  deriving Repr

/-- `AgentCard` pydantic model (main.py lines 57-66). -/
structure AgentCard where
  protocol_version : String := "0.3.0"
  name : String
  version : String
  url : String
  description : String
  capabilities : List String := []
  skills : List AgentSkill := []
  spiffe_id : Option String := none
  deriving Repr

/-- `TaskRequest` pydantic model (main.py lines 69-74); pydantic validates
`skill : str`, `input : dict`, `session_id/trace_id : Optional[str]`. -/
structure TaskRequest where
  skill : String
  input : List (String × JVal)
  session_id : Option String := none
  trace_id : Option String := none
  deriving Repr

/-- `TaskStatus` pydantic model (main.py lines 77-84). -/
structure TaskStatus where
  task_id : String
  status : String
  created_at : String
  updated_at : String
  result : Option (List (String × JVal)) := none
  error : Option String := none
  deriving Repr

/-- Outcome of a FastAPI handler: 200 body, raised HTTPException, or an
exception escaping the handler (HTTP 500 at the framework boundary). -/
inductive HandlerResult (α : Type) where
  | ok : α → HandlerResult α
  | httpError : Nat → String → HandlerResult α
  | uncaught : String → HandlerResult α
  deriving Repr

/-- The backend dispatch `agent_client.send_message(agent_engine_id, message,
session_id)`: a normal structured reply or a raised exception. The
`session_id` argument is the raw JSON value chat passes through (submit_task
passes a pydantic-validated `Optional[str]`, injected via `JVal.s`). -/
def SendMessage : Type :=
  String → String → Option JVal → Except String (List (String × JVal))

/-- `AgentEngineClient.send_message` as implemented (main.py lines 108-128):
a stub that always returns; `session_id or f"session-{agent_engine_id}"` is
Python truthiness on the passed value. `now` is `datetime.utcnow().isoformat()`. -/
def send_message (now : String) : SendMessage := fun agent_engine_id message session_id =>
  .ok
    [ ("session_id",
        match session_id with
        | some v => if jTruthy v then v else .s ("session-" ++ agent_engine_id)
        | none => .s ("session-" ++ agent_engine_id))
    , ("response", .s ("[Stub] Agent " ++ agent_engine_id ++ " received: " ++ message))
    , ("agent_engine_id", .s agent_engine_id)
    , ("timestamp", .s now) ]

/-- The message built by `submit_task` (main.py line 280):
`f"Execute skill '{request.skill}' with input: {request.input}"`. -/
def buildTaskMessage (req : TaskRequest) : String :=
  "Execute skill \x27" ++ req.skill ++ "\x27 with input: " ++ pyRepr (.obj req.input)

/-- The success-path task id (main.py line 289):
`f"task-{agent_name}-{datetime.utcnow().strftime('%Y%m%d%H%M%S')}"`;
`nowFmt` is the second-resolution timestamp string. -/
def mkTaskId (agent_name nowFmt : String) : String :=
  "task-" ++ agent_name ++ "-" ++ nowFmt

/-- `submit_task` handler (main.py lines 271-305). `send` is the backend
client call; `nowFmt`/`nowIso` are the two `datetime.utcnow()` renderings
(the handler's successive clock reads are modelled as one instant, which no
studied claim observes). -/
def submit_task (env agent_name : String) (req : TaskRequest) (send : SendMessage)
    (nowFmt nowIso : String) : HandlerResult TaskStatus :=
  match (AGENT_ENGINE_IDS env).lookup agent_name with
  | none => .httpError 404 ("Agent not found: " ++ agent_name)
  | some agent_engine_id =>
    let message := buildTaskMessage req
    match send agent_engine_id message (req.session_id.map JVal.s) with
    | .ok response =>
        .ok { task_id := mkTaskId agent_name nowFmt
            , status := "completed"
            , created_at := nowIso
            , updated_at := nowIso
            , result := some response
            , error := none }
    | .error e =>
        .ok { task_id := "task-" ++ agent_name ++ "-error"
            , status := "failed"
            , created_at := nowIso
            , updated_at := nowIso
            , result := none
            , error := some e }

/-- The static card table built inside `get_agent_card` (main.py lines
195-261). `env`/`location` are the `ENV` and `LOCATION` configuration values. -/
def cards (env location : String) : List (String × AgentCard) :=
  [ ("orchestrator",
      { name := "intentvision-orchestrator"
      , version := "0.14.1"
      , url := "https://agents.intentvision.intent-solutions.io/orchestrator"
      , description := "IntentVision Orchestrator - Routes requests to specialists"
      , capabilities := ["routing", "coordination", "forecast_explanation"]
      , skills :=
          [ { name := "Explain Forecast"
            , description := "Explain forecast predictions for a metric"
            , input_schema := .obj [("type", .s "object"),
                ("required", .arr [.s "org_id", .s "metric_key"])] }
          , { name := "Analyze Alerts"
            , description := "Analyze alert rules and recommend changes"
            , input_schema := .obj [("type", .s "object"),
                ("required", .arr [.s "org_id"])] } ]
      , spiffe_id := some ("spiffe://intent-solutions.io/agent/intentvision-orchestrator/"
          ++ env ++ "/" ++ location ++ "/0.14.1") })
  , ("metric-analyst",
      { name := "metric-analyst"
      , version := "0.14.1"
      , url := "https://agents.intentvision.intent-solutions.io/metric-analyst"
      , description := "IntentVision Metric Analyst - Forecast and anomaly analysis"
      , capabilities := ["forecast_explanation", "anomaly_analysis", "backend_comparison"]
      , skills :=
          [ { name := "Explain Forecast"
            , description := "Provide detailed explanation of forecast predictions"
            , input_schema := .obj [("type", .s "object"),
                ("required", .arr [.s "org_id", .s "metric_key"])] } ]
      , spiffe_id := some ("spiffe://intent-solutions.io/agent/metric-analyst/"
          ++ env ++ "/" ++ location ++ "/0.14.1") })
  , ("alert-tuner",
      { name := "alert-tuner"
      , version := "0.14.1"
      , url := "https://agents.intentvision.intent-solutions.io/alert-tuner"
      , description := "IntentVision Alert Tuner - Alert optimization"
      , capabilities := ["alert_analysis", "threshold_optimization", "noise_reduction"]
      , skills :=
          [ { name := "Analyze Alerts"
            , description := "Analyze alert rules and firing patterns"
            , input_schema := .obj [("type", .s "object"),
                ("required", .arr [.s "org_id"])] } ]
      , spiffe_id := some ("spiffe://intent-solutions.io/agent/alert-tuner/"
          ++ env ++ "/" ++ location ++ "/0.14.1") })
  , ("onboarding-coach",
      { name := "onboarding-coach"
      , version := "0.14.1"
      , url := "https://agents.intentvision.intent-solutions.io/onboarding-coach"
      , description := "IntentVision Onboarding Coach - Setup assistance"
      , capabilities := ["connection_guidance", "metric_configuration"]
      , skills :=
          [ { name := "Guide Connection"
            , description := "Guide user through connecting a data source"
            , input_schema := .obj [("type", .s "object"),
                ("required", .arr [.s "org_id", .s "source_type"])] } ]
      , spiffe_id := some ("spiffe://intent-solutions.io/agent/onboarding-coach/"
          ++ env ++ "/" ++ location ++ "/0.14.1") }) ]

/-- `get_agent_card` handler (main.py lines 187-268): 404 when the name is
not in `AGENT_ENGINE_IDS`, else the static card with a generic fallback
(`cards.get(agent_name, AgentCard(...))`). -/
def get_agent_card (env location agent_name : String) : HandlerResult AgentCard :=
  if ((AGENT_ENGINE_IDS env).lookup agent_name).isNone then
    .httpError 404 ("Agent not found: " ++ agent_name)
  else
    .ok (((cards env location).lookup agent_name).getD
      { name := agent_name
      , version := "0.14.1"
      , url := "https://agents.intentvision.intent-solutions.io/" ++ agent_name
      , description := "IntentVision " ++ agent_name })

/-- `chat_with_orchestrator` handler (main.py lines 308-339). `body` is the
raw request JSON object; `send` is the backend client call. The backend
dispatch is not wrapped in try/except, so a raised exception becomes
`.uncaught`. -/
def chat_with_orchestrator (env : String) (body : List (String × JVal))
    (send : SendMessage) : HandlerResult (List (String × JVal)) :=
  let message := (body.lookup "message").getD (.s "")
  let org_id := (body.lookup "org_id").getD (.s "")
  let session_id := body.lookup "session_id"
  if !jTruthy message then .httpError 400 "message is required"
  else if !jTruthy org_id then .httpError 400 "org_id is required"
  else
    -- AGENT_ENGINE_IDS["orchestrator"]; the key is statically present
    let agent_engine_id := ((AGENT_ENGINE_IDS env).lookup "orchestrator").getD ""
    let full_message := "[Organization: " ++ pyStr org_id ++ "] " ++ pyStr message
    match send agent_engine_id full_message session_id with
    | .error e => .uncaught e
    | .ok response =>
        .ok [ ("response", (response.lookup "response").getD (.s ""))
            , ("session_id", (response.lookup "session_id").getD .null)
            , ("trace_id", (response.lookup "trace_id").getD .null) ]

/-! ## Shared HTTP tools (`src/adk/agents/shared_tools/intentvision_api.py`)

Each tool body is `httpx.get/post(...)`, `response.raise_for_status()`,
`return response.json()`, all inside `try`, with `except Exception` returning
a per-tool failure dictionary. The transport outcome of the `httpx` call is
the tool's only effect, modelled as `HttpOutcome`. -/

/-- Outcome of an `httpx` request: a raised transport exception (connect
error, timeout, ...), or a response with a status code whose `.json()` either
parses or raises. -/
inductive HttpOutcome where
  | exn : String → HttpOutcome
  | resp : Nat → Except String JVal → HttpOutcome
  deriving Repr

/-- The message of the `HTTPStatusError` raised by
`Response.raise_for_status` on a non-2xx status (the exact httpx wording is
longer; only its presence matters to the claims). -/
def statusErrMsg (status : Nat) : String :=
  "HTTP status error " ++ toString status

/-- The shared `httpx.get/post` → `raise_for_status` → `.json()` chain:
`.error` is the first exception raised along it. `raise_for_status` returns
normally exactly on a 2xx status. -/
def tryRequest : HttpOutcome → Except String JVal
  | .exn e => .error e
  | .resp status body =>
      if 200 ≤ status ∧ status < 300 then body else .error (statusErrMsg status)

/-- `get_forecast` (intentvision_api.py lines 35-63). The request arguments
shape only the URL/query, never the returned value. -/
def get_forecast (org_id metric_key : String) (horizon : Int) (backend : String)
    (outcome : HttpOutcome) : JVal :=
  match tryRequest outcome with
  | .ok payload => payload
  | .error e => .obj [("error", .s e), ("success", .b false)]

/-- `get_anomalies` (intentvision_api.py lines 78-110). -/
def get_anomalies (org_id : String) (metric_key : Option String)
    (time_range min_severity : String) (outcome : HttpOutcome) : JVal :=
  match tryRequest outcome with
  | .ok payload => payload
  | .error e => .obj [("error", .s e), ("success", .b false), ("anomalies", .arr [])]

/-- `get_metric_history` (intentvision_api.py lines 125-151). -/
def get_metric_history (org_id metric_key time_range : String)
    (outcome : HttpOutcome) : JVal :=
  match tryRequest outcome with
  | .ok payload => payload
  | .error e => .obj [("error", .s e), ("success", .b false), ("values", .arr [])]

/-- `get_alert_rules` (intentvision_api.py lines 166-185). -/
def get_alert_rules (org_id : String) (outcome : HttpOutcome) : JVal :=
  match tryRequest outcome with
  | .ok payload => payload
  | .error e => .obj [("error", .s e), ("success", .b false), ("rules", .arr [])]

/-- `get_alert_history` (intentvision_api.py lines 196-226). -/
def get_alert_history (org_id : String) (rule_id : Option String)
    (time_range : String) (outcome : HttpOutcome) : JVal :=
  match tryRequest outcome with
  | .ok payload => payload
  | .error e => .obj [("error", .s e), ("success", .b false), ("events", .arr [])]

/-- `run_pipeline` (intentvision_api.py lines 241-265), a POST with a
60-second timeout; same failure contract. -/
def run_pipeline (org_id : String) (use_synthetic : Bool)
    (outcome : HttpOutcome) : JVal :=
  match tryRequest outcome with
  | .ok payload => payload
  | .error e => .obj [("error", .s e), ("success", .b false)]

/-! ## Session-memory callback (`src/adk/agents/utils/memory.py`) -/

/-- The callback context as inspected by `auto_save_session_to_memory`:
`hasattr(ctx, "_invocation_context")`, then `memory_service` and `session`
attributes (possibly absent/None). `sessionId` is `session.id`. -/
structure CallbackCtx where
  hasInvocationContext : Bool
  hasMemoryService : Bool
  hasSession : Bool
  sessionId : String
  deriving Repr

/-- The body of the `try:` block (memory.py lines 27-37): invokes
`memory_svc.add_session_to_memory(session)` — the `save` action, which may
raise — only when the invocation context and both attributes are present.
Returns the emitted log lines; `.error` is a raised exception. -/
def memorySaveBody (ctx : CallbackCtx) (save : String → Except String Unit) :
    Except String (List String) :=
  if ctx.hasInvocationContext then
    if ctx.hasMemoryService && ctx.hasSession then
      match save ctx.sessionId with
      | .ok _ => .ok ["Saved session " ++ ctx.sessionId ++ " to Memory Bank"]
      | .error e => .error e
    else .ok []
  else .ok []

/-- `auto_save_session_to_memory` (memory.py lines 17-43): the whole body is
wrapped in `try ... except Exception`, which logs and swallows. The return
value is the list of emitted log lines; the callback itself returns `None`
to the agent runtime. -/
def auto_save_session_to_memory (ctx : CallbackCtx)
    (save : String → Except String Unit) : List String :=
  match memorySaveBody ctx save with
  | .ok logs => logs
  | .error e => ["Failed to save session to Memory Bank: " ++ e]

/-- The agent runtime's post-turn step: the primary reply is produced first,
then `after_agent_callback` runs `auto_save_session_to_memory` (whose `None`
return leaves the reply unchanged, per ADK callback semantics). Returns the
reply delivered to the caller together with the callback's log lines. -/
def runTurnWithCallback (reply : String) (ctx : CallbackCtx)
    (save : String → Except String Unit) : String × List String :=
  (reply, auto_save_session_to_memory ctx save)

/-! ## Observation helpers -/

/-- The `task_id` of a 200 `TaskStatus` response, `none` otherwise. -/
def taskIdOf : HandlerResult TaskStatus → Option String
  | .ok ts => some ts.task_id
  | _ => none

/-- The `input_schema` the published agent card declares for a skill: looks
the skill up in `get_agent_card`'s 200 response. -/
def declaredInputSchema (env location agent_name skill : String) : Option JVal :=
  match get_agent_card env location agent_name with
  | .ok card => (card.skills.find? (fun sk => sk.name == skill)).map AgentSkill.input_schema
  | _ => none

/-- Spec-side validation predicate, written from the spec's words (not from
the source, which implements no such check): a payload satisfies a declared
input schema when every field listed under the schema's `required` key is
present in the payload. Used only to state what claim C6 asserts the gateway
checks before dispatch. -/
def specInputSatisfiesSchema (schema : JVal) (input : List (String × JVal)) : Bool :=
  match jget schema "required" with
  | some (.arr reqs) => reqs.all fun r =>
      match r with
      | .s field => (input.lookup field).isSome
      | _ => true
  | _ => true

/-- The `response` text the chat endpoint relays when running against the
in-repo stub backend client: a composition of `chat_with_orchestrator`'s
`full_message` and `send_message`'s stub reply. -/
def stubChatText (env : String) (body : List (String × JVal)) : String :=
  "[Stub] Agent " ++ (((AGENT_ENGINE_IDS env).lookup "orchestrator").getD "") ++
    " received: " ++
    ("[Organization: " ++ pyStr ((body.lookup "org_id").getD (.s "")) ++ "] " ++
      pyStr ((body.lookup "message").getD (.s "")))

/-- The `session_id` value the chat endpoint relays when running against the
in-repo stub backend client: the caller-supplied session id when truthy,
else the stub's generated `session-<agent_engine_id>` string. -/
def stubSessionField (env : String) (body : List (String × JVal)) : JVal :=
  match body.lookup "session_id" with
  | some v =>
      if jTruthy v then v
      else .s ("session-" ++ (((AGENT_ENGINE_IDS env).lookup "orchestrator").getD ""))
  | none => .s ("session-" ++ (((AGENT_ENGINE_IDS env).lookup "orchestrator").getD ""))

/-! ## Theorems -/

/-- C1: for every `submit_task` call on a registered agent name, if the
backend client's `send_message` raises an exception, the handler returns an
HTTP 200 (`.ok`) body: a `TaskStatus` with `status = "failed"` and `error`
equal to the exception's message. In particular the exception never escapes
the handler (no `.uncaught`, hence no HTTP 5xx). -/
theorem submit_task_backend_exception_folded_to_failed
    (env agent_name : String) (req : TaskRequest) (send : SendMessage)
    (nowFmt nowIso eid e : String)
    (hreg : (AGENT_ENGINE_IDS env).lookup agent_name = some eid)
    (hsend : send eid (buildTaskMessage req) (req.session_id.map JVal.s) = .error e) :
    submit_task env agent_name req send nowFmt nowIso =
      .ok { task_id := "task-" ++ agent_name ++ "-error"
          , status := "failed"
          , created_at := nowIso
          , updated_at := nowIso
          , result := none
          , error := some e } := by
  simp [submit_task, hreg, hsend]

/-- Witness for C1 at a concrete faulty backend. -/
theorem submit_task_backend_exception_folded_to_failed_witness :
    submit_task "dev" "orchestrator"
        { skill := "Explain Forecast", input := [("org_id", .s "acme")] }
        (fun _ _ _ => .error "connect timeout") "20250101000000" "2025-01-01T00:00:00" =
      .ok { task_id := "task-orchestrator-error"
          , status := "failed"
          , created_at := "2025-01-01T00:00:00"
          , updated_at := "2025-01-01T00:00:00"
          , result := none
          , error := some "connect timeout" } :=
  submit_task_backend_exception_folded_to_failed "dev" "orchestrator"
    { skill := "Explain Forecast", input := [("org_id", .s "acme")] }
    (fun _ _ _ => .error "connect timeout")
    "20250101000000" "2025-01-01T00:00:00" "intentvision-orchestrator-dev"
    "connect timeout" rfl rfl

/-- C2: every 200 body `submit_task` returns has `status` equal to
`"completed"` or `"failed"`; it is never `"pending"` or `"running"`. -/
theorem submit_task_status_terminal
    (env agent_name : String) (req : TaskRequest) (send : SendMessage)
    (nowFmt nowIso : String) (ts : TaskStatus)
    (h : submit_task env agent_name req send nowFmt nowIso = .ok ts) :
    ts.status = "completed" ∨ ts.status = "failed" := by
  unfold submit_task at h
  rcases hreg : (AGENT_ENGINE_IDS env).lookup agent_name with _ | eid
  · rw [hreg] at h
    exact absurd h (by simp)
  · rw [hreg] at h
    rcases hs : send eid (buildTaskMessage req) (req.session_id.map JVal.s) with e | r
    · simp only [hs] at h
      injection h with h'
      subst h'
      exact Or.inr rfl
    · simp only [hs] at h
      injection h with h'
      subst h'
      exact Or.inl rfl

/-- Witness for C2 at a concrete successful call. -/
theorem submit_task_status_terminal_witness :
    ("completed" : String) = "completed" ∨ ("completed" : String) = "failed" :=
  submit_task_status_terminal "dev" "metric-analyst"
    { skill := "Explain Forecast", input := [("org_id", .s "acme")] }
    (fun _ _ _ => .ok [("response", .s "trend is upward")]) "20250101000000" "t"
    { task_id := "task-metric-analyst-20250101000000"
    , status := "completed"
    , created_at := "t"
    , updated_at := "t"
    , result := some [("response", .s "trend is upward")]
    , error := none }
    rfl

/-- C3: for every agent name outside the registered table both
`get_agent_card` and `submit_task` answer HTTP 404 (the `.httpError 404`
outcome, hence never 200 and never 500). The `submit_task` conclusion holds
for every backend `send`, every request body and every clock reading, and
the 404 response carries no `TaskStatus`: no task record is created and the
backend is never consulted before rejection. -/
theorem unregistered_agent_rejected_404
    (env location agent_name : String)
    (h : (AGENT_ENGINE_IDS env).lookup agent_name = none) :
    get_agent_card env location agent_name =
        .httpError 404 ("Agent not found: " ++ agent_name) ∧
    ∀ (req : TaskRequest) (send : SendMessage) (nowFmt nowIso : String),
      submit_task env agent_name req send nowFmt nowIso =
        .httpError 404 ("Agent not found: " ++ agent_name) := by
  refine ⟨?_, fun req send nowFmt nowIso => ?_⟩
  · simp [get_agent_card, h]
  · simp [submit_task, h]

/-- Witness for C3 at the unregistered name `"unknown-agent"`. -/
theorem unregistered_agent_rejected_404_witness :
    get_agent_card "dev" "us-central1" "unknown-agent" =
        .httpError 404 ("Agent not found: " ++ "unknown-agent") ∧
    ∀ (req : TaskRequest) (send : SendMessage) (nowFmt nowIso : String),
      submit_task "dev" "unknown-agent" req send nowFmt nowIso =
        .httpError 404 ("Agent not found: " ++ "unknown-agent") :=
  unregistered_agent_rejected_404 "dev" "us-central1" "unknown-agent" rfl

/-- C6 counterexample: the registered agent `metric-analyst` declares skill
`Explain Forecast` with an input schema requiring `org_id` and `metric_key`,
and the empty payload fails that schema (in the spec's sense of
`specInputSatisfiesSchema`); yet `submit_task` dispatches it to the backend
and returns `status = "completed"` with the backend's reply — the payload is
not validated and not rejected. -/
theorem submit_task_skips_schema_validation_counterexample :
    declaredInputSchema "dev" "us-central1" "metric-analyst" "Explain Forecast" =
      some (.obj [("type", .s "object"),
        ("required", .arr [.s "org_id", .s "metric_key"])]) ∧
    specInputSatisfiesSchema
      (.obj [("type", .s "object"),
        ("required", .arr [.s "org_id", .s "metric_key"])]) [] = false ∧
    submit_task "dev" "metric-analyst"
        { skill := "Explain Forecast", input := [] }
        (fun _ _ _ => .ok [("response", .s "trend is upward")])
        "20250101000000" "2025-01-01T00:00:00" =
      .ok { task_id := "task-metric-analyst-20250101000000"
          , status := "completed"
          , created_at := "2025-01-01T00:00:00"
          , updated_at := "2025-01-01T00:00:00"
          , result := some [("response", .s "trend is upward")]
          , error := none } :=
  ⟨rfl, rfl, rfl⟩

/-- C6 as amended: `submit_task` performs no validation of the input payload
against the target skill's declared `input_schema`; once the agent name is
registered, every payload — including one missing a required field — is
dispatched to the backend unchanged, and a successful dispatch completes the
task. -/
theorem submit_task_dispatches_any_payload
    (env agent_name : String) (req : TaskRequest)
    (r : List (String × JVal)) (nowFmt nowIso eid : String)
    (hreg : (AGENT_ENGINE_IDS env).lookup agent_name = some eid) :
    submit_task env agent_name req (fun _ _ _ => .ok r) nowFmt nowIso =
      .ok { task_id := mkTaskId agent_name nowFmt
          , status := "completed"
          , created_at := nowIso
          , updated_at := nowIso
          , result := some r
          , error := none } := by
  simp [submit_task, hreg]

/-- Witness for the amended C6: the schema-violating empty payload from the
counterexample is dispatched and completed. -/
theorem submit_task_dispatches_any_payload_witness :
    submit_task "dev" "metric-analyst"
        { skill := "Explain Forecast", input := [] }
        (fun _ _ _ => .ok [("response", .s "ok")]) "20250101000000" "t" =
      .ok { task_id := mkTaskId "metric-analyst" "20250101000000"
          , status := "completed"
          , created_at := "t"
          , updated_at := "t"
          , result := some [("response", .s "ok")]
          , error := none } :=
  submit_task_dispatches_any_payload "dev" "metric-analyst"
    { skill := "Explain Forecast", input := [] }
    [("response", .s "ok")] "20250101000000" "t"
    "intentvision-metric-analyst-dev" rfl

/-- Success task ids built from agent names of different lengths differ. -/
theorem mkTaskId_ne_of_length_ne (a1 a2 t : String)
    (h : a1.length ≠ a2.length) : mkTaskId a1 t ≠ mkTaskId a2 t := by
  intro hid
  apply h
  have hlen := congrArg String.length hid
  simp [mkTaskId, String.length_append] at hlen
  omega

/-- A completed `submit_task` response carries the timestamp-derived id. -/
theorem submit_task_completed_task_id
    (env agent_name : String) (req : TaskRequest) (send : SendMessage)
    (nowFmt nowIso : String) (ts : TaskStatus)
    (h : submit_task env agent_name req send nowFmt nowIso = .ok ts)
    (hc : ts.status = "completed") :
    ts.task_id = mkTaskId agent_name nowFmt := by
  unfold submit_task at h
  rcases hreg : (AGENT_ENGINE_IDS env).lookup agent_name with _ | eid
  · rw [hreg] at h
    exact absurd h (by simp)
  · rw [hreg] at h
    rcases hs : send eid (buildTaskMessage req) (req.session_id.map JVal.s) with e | r
    · simp only [hs] at h
      injection h with h'
      subst h'
      exact absurd hc (by simp)
    · simp only [hs] at h
      injection h with h'
      subst h'
      rfl

/-- C7 counterexample: task ids are not unique across distinct `submit_task`
calls. Two distinct failed submissions to the same agent (different skills,
different clock readings, different backend errors) both receive the
constant id `task-orchestrator-error`; and two distinct successful
submissions to the same agent within the same UTC second (different skills
and payloads) both receive `task-orchestrator-20250101000000`. -/
theorem task_id_not_unique_counterexample :
    taskIdOf (submit_task "dev" "orchestrator"
        { skill := "Explain Forecast", input := [] }
        (fun _ _ _ => .error "timeout") "20250101000000" "t1") =
      some "task-orchestrator-error" ∧
    taskIdOf (submit_task "dev" "orchestrator"
        { skill := "Analyze Alerts", input := [] }
        (fun _ _ _ => .error "network unreachable") "20250101000007" "t2") =
      some "task-orchestrator-error" ∧
    taskIdOf (submit_task "dev" "orchestrator"
        { skill := "Explain Forecast", input := [("org_id", .s "acme")] }
        (fun _ _ _ => .ok [("response", .s "a")]) "20250101000000" "t1") =
      some "task-orchestrator-20250101000000" ∧
    taskIdOf (submit_task "dev" "orchestrator"
        { skill := "Analyze Alerts", input := [("org_id", .s "globex")] }
        (fun _ _ _ => .ok [("response", .s "b")]) "20250101000000" "t2") =
      some "task-orchestrator-20250101000000" :=
  ⟨rfl, rfl, rfl, rfl⟩

/-- C7 as amended: success-path task ids separate submissions to *distinct*
registered agents (even at the same clock second), because the id embeds the
agent name; uniqueness fails only within one agent — for two successful
submissions in the same UTC second, or any two failed submissions (see the
counterexample). -/
theorem distinct_agents_distinct_task_ids
    (env a1 a2 : String) (req1 req2 : TaskRequest)
    (send1 send2 : SendMessage) (nowFmt nowIso1 nowIso2 : String)
    (ts1 ts2 : TaskStatus)
    (h1 : a1 ∈ (AGENT_ENGINE_IDS env).map Prod.fst)
    (h2 : a2 ∈ (AGENT_ENGINE_IDS env).map Prod.fst)
    (hne : a1 ≠ a2)
    (e1 : submit_task env a1 req1 send1 nowFmt nowIso1 = .ok ts1)
    (e2 : submit_task env a2 req2 send2 nowFmt nowIso2 = .ok ts2)
    (s1 : ts1.status = "completed") (s2 : ts2.status = "completed") :
    ts1.task_id ≠ ts2.task_id := by
  rw [submit_task_completed_task_id env a1 req1 send1 nowFmt nowIso1 ts1 e1 s1,
    submit_task_completed_task_id env a2 req2 send2 nowFmt nowIso2 ts2 e2 s2]
  simp [AGENT_ENGINE_IDS] at h1 h2
  rcases h1 with rfl | rfl | rfl | rfl <;> rcases h2 with rfl | rfl | rfl | rfl <;>
    first
      | exact absurd rfl hne
      | exact mkTaskId_ne_of_length_ne _ _ _ (by decide)

/-- Witness for the amended C7: same-second completed submissions to
`orchestrator` and `metric-analyst` get distinct task ids. -/
theorem distinct_agents_distinct_task_ids_witness :
    ("task-orchestrator-20250101000000" : String) ≠
      "task-metric-analyst-20250101000000" :=
  distinct_agents_distinct_task_ids "dev" "orchestrator" "metric-analyst"
    { skill := "Explain Forecast", input := [] }
    { skill := "Explain Forecast", input := [] }
    (fun _ _ _ => .ok []) (fun _ _ _ => .ok [])
    "20250101000000" "t1" "t2"
    { task_id := "task-orchestrator-20250101000000", status := "completed"
    , created_at := "t1", updated_at := "t1", result := some [], error := none }
    { task_id := "task-metric-analyst-20250101000000", status := "completed"
    , created_at := "t2", updated_at := "t2", result := some [], error := none }
    (by decide) (by decide) (by decide) rfl rfl rfl rfl

/-- C4: for every HTTP-backed tool, any transport failure — a raised
transport exception, a non-2xx status, or a malformed (unparseable) body —
is caught inside the tool, which returns a dictionary carrying
`success = false` and the error string (plus the tool's empty-collection
defaults). The tools are total functions into `JVal`: no exception channel
exists for them to propagate anything. -/
theorem tools_fold_transport_failures_to_error_dict
    (outcome : HttpOutcome) (e : String)
    (hfail : tryRequest outcome = .error e)
    (org metric backend time_range severity : String)
    (mk rid : Option String) (horizon : Int) (syn : Bool) :
    get_forecast org metric horizon backend outcome =
      .obj [("error", .s e), ("success", .b false)] ∧
    get_anomalies org mk time_range severity outcome =
      .obj [("error", .s e), ("success", .b false), ("anomalies", .arr [])] ∧
    get_metric_history org metric time_range outcome =
      .obj [("error", .s e), ("success", .b false), ("values", .arr [])] ∧
    get_alert_rules org outcome =
      .obj [("error", .s e), ("success", .b false), ("rules", .arr [])] ∧
    get_alert_history org rid time_range outcome =
      .obj [("error", .s e), ("success", .b false), ("events", .arr [])] ∧
    run_pipeline org syn outcome =
      .obj [("error", .s e), ("success", .b false)] := by
  refine ⟨?_, ?_, ?_, ?_, ?_, ?_⟩ <;>
    simp [get_forecast, get_anomalies, get_metric_history, get_alert_rules,
      get_alert_history, run_pipeline, hfail]

/-- Witness for C4 at a concrete 500 response. -/
theorem tools_fold_transport_failures_to_error_dict_witness :
    get_forecast "acme" "revenue.daily" 7 "statistical"
        (.resp 500 (.ok (.obj []))) =
      .obj [("error", .s (statusErrMsg 500)), ("success", .b false)] ∧
    get_anomalies "acme" none "7d" "warning" (.resp 500 (.ok (.obj []))) =
      .obj [("error", .s (statusErrMsg 500)), ("success", .b false),
        ("anomalies", .arr [])] ∧
    get_metric_history "acme" "revenue.daily" "7d" (.resp 500 (.ok (.obj []))) =
      .obj [("error", .s (statusErrMsg 500)), ("success", .b false),
        ("values", .arr [])] ∧
    get_alert_rules "acme" (.resp 500 (.ok (.obj []))) =
      .obj [("error", .s (statusErrMsg 500)), ("success", .b false),
        ("rules", .arr [])] ∧
    get_alert_history "acme" none "30d" (.resp 500 (.ok (.obj []))) =
      .obj [("error", .s (statusErrMsg 500)), ("success", .b false),
        ("events", .arr [])] ∧
    run_pipeline "acme" true (.resp 500 (.ok (.obj []))) =
      .obj [("error", .s (statusErrMsg 500)), ("success", .b false)] :=
  tools_fold_transport_failures_to_error_dict (.resp 500 (.ok (.obj [])))
    (statusErrMsg 500) (by simp [tryRequest]) "acme" "revenue.daily"
    "statistical" "7d" "warning" none none 7 true

/-- C5 counterexample: on a successful call the tool returns the native
payload *unchanged* — no `success = true` field is merged in. At status 200
with body `{"predictions": []}` the result of `get_forecast` has no
`success` key at all, contradicting the claimed merge. -/
theorem tool_success_no_merged_success_field_counterexample :
    get_forecast "acme" "revenue.daily" 7 "statistical"
        (.resp 200 (.ok (.obj [("predictions", .arr [])]))) =
      .obj [("predictions", .arr [])] ∧
    jget (.obj [("predictions", .arr [])]) "success" = none :=
  ⟨rfl, rfl⟩

/-- C5 as amended: on a successful underlying HTTP call (2xx status, body
parses) every HTTP-backed tool returns the operation's native response
payload unchanged; no `success = true` field is added — success is implicit
in the absence of the `success = false` failure shape. -/
theorem tools_return_native_payload_on_success
    (status : Nat) (payload : JVal)
    (h2xx : 200 ≤ status ∧ status < 300)
    (org metric backend time_range severity : String)
    (mk rid : Option String) (horizon : Int) (syn : Bool) :
    get_forecast org metric horizon backend (.resp status (.ok payload)) = payload ∧
    get_anomalies org mk time_range severity (.resp status (.ok payload)) = payload ∧
    get_metric_history org metric time_range (.resp status (.ok payload)) = payload ∧
    get_alert_rules org (.resp status (.ok payload)) = payload ∧
    get_alert_history org rid time_range (.resp status (.ok payload)) = payload ∧
    run_pipeline org syn (.resp status (.ok payload)) = payload := by
  refine ⟨?_, ?_, ?_, ?_, ?_, ?_⟩ <;>
    simp [get_forecast, get_anomalies, get_metric_history, get_alert_rules,
      get_alert_history, run_pipeline, tryRequest, h2xx]

/-- Witness for the amended C5 at a concrete 200 response. -/
theorem tools_return_native_payload_on_success_witness :
    get_forecast "acme" "revenue.daily" 7 "statistical"
        (.resp 200 (.ok (.obj [("predictions", .arr [])]))) =
      .obj [("predictions", .arr [])] ∧
    get_anomalies "acme" none "7d" "warning"
        (.resp 200 (.ok (.obj [("predictions", .arr [])]))) =
      .obj [("predictions", .arr [])] ∧
    get_metric_history "acme" "revenue.daily" "7d"
        (.resp 200 (.ok (.obj [("predictions", .arr [])]))) =
      .obj [("predictions", .arr [])] ∧
    get_alert_rules "acme" (.resp 200 (.ok (.obj [("predictions", .arr [])]))) =
      .obj [("predictions", .arr [])] ∧
    get_alert_history "acme" none "30d"
        (.resp 200 (.ok (.obj [("predictions", .arr [])]))) =
      .obj [("predictions", .arr [])] ∧
    run_pipeline "acme" true (.resp 200 (.ok (.obj [("predictions", .arr [])]))) =
      .obj [("predictions", .arr [])] :=
  tools_return_native_payload_on_success 200 (.obj [("predictions", .arr [])])
    (by decide) "acme" "revenue.daily" "statistical" "7d" "warning"
    none none 7 true

/-- C8: the chat endpoint answers 400 (`message is required`) whenever the
`message` field is missing or empty (falsy), for any backend; 400
(`org_id is required`) whenever `message` is present but `org_id` is missing
or empty; and with both present, running against the in-repo backend client
it answers HTTP 200 with a non-null string `response` and a non-null
`session_id`. -/
theorem chat_validates_then_succeeds
    (env now : String) (body : List (String × JVal)) :
    (∀ send : SendMessage,
      jTruthy ((body.lookup "message").getD (.s "")) = false →
      chat_with_orchestrator env body send =
        .httpError 400 "message is required") ∧
    (∀ send : SendMessage,
      jTruthy ((body.lookup "message").getD (.s "")) = true →
      jTruthy ((body.lookup "org_id").getD (.s "")) = false →
      chat_with_orchestrator env body send =
        .httpError 400 "org_id is required") ∧
    (jTruthy ((body.lookup "message").getD (.s "")) = true →
      jTruthy ((body.lookup "org_id").getD (.s "")) = true →
      chat_with_orchestrator env body (send_message now) =
        .ok [ ("response", .s (stubChatText env body))
            , ("session_id", stubSessionField env body)
            , ("trace_id", .null) ] ∧
      stubSessionField env body ≠ .null) := by
  refine ⟨fun send hm => by simp [chat_with_orchestrator, hm],
    fun send hm ho => by simp [chat_with_orchestrator, hm, ho],
    fun hm ho => ⟨?_, ?_⟩⟩
  · rcases hsid : body.lookup "session_id" with _ | v
    · simp [chat_with_orchestrator, hm, ho, hsid, send_message,
        stubChatText, stubSessionField, List.lookup]
    · by_cases htr : jTruthy v <;>
        simp [chat_with_orchestrator, hm, ho, hsid, send_message,
          stubChatText, stubSessionField, htr, List.lookup]
  · unfold stubSessionField
    rcases hsid : body.lookup "session_id" with _ | v
    · simp
    · by_cases htr : jTruthy v
      · simpa [htr] using fun hnull => by simp [hnull, jTruthy] at htr
      · simp [htr]

/-- Witness for C8 at concrete request bodies. -/
theorem chat_validates_then_succeeds_witness :
    (chat_with_orchestrator "dev" [("org_id", .s "acme")] (send_message "t") =
      .httpError 400 "message is required") ∧
    (chat_with_orchestrator "dev" [("message", .s "Hello")] (send_message "t") =
      .httpError 400 "org_id is required") ∧
    (chat_with_orchestrator "dev"
        [("message", .s "Explain the forecast"), ("org_id", .s "acme")]
        (send_message "t") =
      .ok [ ("response", .s (stubChatText "dev"
              [("message", .s "Explain the forecast"), ("org_id", .s "acme")]))
          , ("session_id", stubSessionField "dev"
              [("message", .s "Explain the forecast"), ("org_id", .s "acme")])
          , ("trace_id", .null) ] ∧
      stubSessionField "dev"
        [("message", .s "Explain the forecast"), ("org_id", .s "acme")] ≠ .null) :=
  ⟨(chat_validates_then_succeeds "dev" "t" [("org_id", .s "acme")]).1
      (send_message "t") rfl,
   (chat_validates_then_succeeds "dev" "t" [("message", .s "Hello")]).2.1
      (send_message "t") rfl rfl,
   (chat_validates_then_succeeds "dev" "t"
      [("message", .s "Explain the forecast"), ("org_id", .s "acme")]).2.2
      rfl rfl⟩

/-- C9: the post-turn session-persistence callback catches any exception the
memory-store save raises, converting it into a log line; it returns log
lines only (its codomain has no exception channel, mirroring the blanket
`except Exception` in the source), and the primary reply delivered by the
turn is unchanged. -/
theorem memory_callback_swallows_save_failures
    (ctx : CallbackCtx) (save : String → Except String Unit) (reply e : String)
    (hfail : memorySaveBody ctx save = .error e) :
    auto_save_session_to_memory ctx save =
      ["Failed to save session to Memory Bank: " ++ e] ∧
    (runTurnWithCallback reply ctx save).1 = reply :=
  ⟨by simp [auto_save_session_to_memory, hfail], rfl⟩

/-- Witness for C9 at a concrete failing memory store. -/
theorem memory_callback_swallows_save_failures_witness :
    auto_save_session_to_memory
        { hasInvocationContext := true, hasMemoryService := true
        , hasSession := true, sessionId := "sess-1" }
        (fun _ => .error "memory store unavailable") =
      ["Failed to save session to Memory Bank: " ++ "memory store unavailable"] ∧
    (runTurnWithCallback "the forecast is flat"
        { hasInvocationContext := true, hasMemoryService := true
        , hasSession := true, sessionId := "sess-1" }
        (fun _ => .error "memory store unavailable")).1 = "the forecast is flat" :=
  memory_callback_swallows_save_failures
    { hasInvocationContext := true, hasMemoryService := true
    , hasSession := true, sessionId := "sess-1" }
    (fun _ => .error "memory store unavailable")
    "the forecast is flat" "memory store unavailable" rfl

/-- C10: with `message` and `org_id` both present, an exception raised by
the backend client's `send_message` escapes `chat_with_orchestrator`
uncaught (the `.uncaught` outcome, an HTTP 500 at the framework boundary) —
unlike `submit_task`, which on the same failing backend folds the exception
into a 200 `failed` body. -/
theorem chat_backend_exception_escapes_uncaught
    (env : String) (body : List (String × JVal)) (e : String)
    (hm : jTruthy ((body.lookup "message").getD (.s "")) = true)
    (ho : jTruthy ((body.lookup "org_id").getD (.s "")) = true) :
    chat_with_orchestrator env body (fun _ _ _ => .error e) = .uncaught e ∧
    ∀ (req : TaskRequest) (nowFmt nowIso : String),
      submit_task env "orchestrator" req (fun _ _ _ => .error e) nowFmt nowIso =
        .ok { task_id := "task-orchestrator-error"
            , status := "failed"
            , created_at := nowIso
            , updated_at := nowIso
            , result := none
            , error := some e } := by
  refine ⟨by simp [chat_with_orchestrator, hm, ho], fun req nowFmt nowIso => ?_⟩
  simp [submit_task, AGENT_ENGINE_IDS]

/-- Witness for C10 at a concrete request and backend fault. -/
theorem chat_backend_exception_escapes_uncaught_witness :
    (chat_with_orchestrator "dev"
        [("message", .s "Hello"), ("org_id", .s "acme")]
        (fun _ _ _ => .error "connect timeout") = .uncaught "connect timeout") ∧
    ∀ (req : TaskRequest) (nowFmt nowIso : String),
      submit_task "dev" "orchestrator" req
          (fun _ _ _ => .error "connect timeout") nowFmt nowIso =
        .ok { task_id := "task-orchestrator-error"
            , status := "failed"
            , created_at := nowIso
            , updated_at := nowIso
            , result := none
            , error := some "connect timeout" } :=
  chat_backend_exception_escapes_uncaught "dev"
    [("message", .s "Hello"), ("org_id", .s "acme")] "connect timeout" rfl rfl

end IntentVision
